import Mathlib

/-!
Verification development for the Esprit Connect job scraper
(`esprit_job_scraper.py`).  The Python source is shallowly embedded:
strings are Lean `String` (operated on through their character lists,
mirroring Python's by-code-point semantics), the browser environment is a
function from job IDs to fetch outcomes, and the stateful scraping loop is
fuel-indexed explicit state passing.
-/

/-! ## Python string primitives used by the scraper -/

/-- Python `str.strip()`: remove leading and trailing whitespace. -/
def pyStrip (s : String) : String :=
  String.mk (((s.data.dropWhile Char.isWhitespace).reverse.dropWhile
    Char.isWhitespace).reverse)

/-- Python slicing `s[:n]`: the first `n` characters of `s`. -/
def pySlice (s : String) (n : Nat) : String :=
  String.mk (s.data.take n)

/-- Python `str.lower()` (character-wise lowering, as used on the ASCII
placeholder strings of the scraper). -/
def pyLower (s : String) : String :=
  String.mk (s.data.map Char.toLower)

/-- Does the character list `needle` occur at the head of the second list? -/
def charsMatch : List Char → List Char → Bool
  | [], _ => true
  | _ :: _, [] => false
  | c :: cs, h :: hs => c == h && charsMatch cs hs

/-- Does `needle` occur somewhere inside the list? -/
def subOccurs (needle : List Char) : List Char → Bool
  | [] => needle.isEmpty
  | h :: t => charsMatch needle (h :: t) || subOccurs needle t

/-- Python `s.startswith(p)`. -/
def strStartsWith (s p : String) : Bool := charsMatch p.data s.data

/-- Python `s.endswith(p)`. -/
def strEndsWith (s p : String) : Bool :=
  charsMatch p.data.reverse s.data.reverse

/-- Python `sub in s` (substring containment). -/
def strContains (s sub : String) : Bool := subOccurs sub.data s.data

/-- Python `a or b` for an optional string `a` and string `b`:
`a` wins iff it is present and truthy (non-empty). -/
def pyOr (a : Option String) (b : String) : String :=
  match a with
  | some s => if s == "" then b else s
  | none => b

/-- Python truthiness of an optional string: present and non-empty. -/
def pyTruthy (a : Option String) : Bool :=
  match a with
  | some s => s != ""
  | none => false

/-! ## Data model: `JobPosting` (the `@dataclass` of the source) -/

/-- Data structure for a job posting (`JobPosting` dataclass). -/
structure JobPosting where
  job_id : Nat
  title : String
  company : String
  location : String
  description : String
  requirements : String
  posted_date : String
  url : String
  image_url : Option String := none
  company_logo_url : Option String := none
  employment_type : Option String := none
  industry : Option String := none
  job_function : Option String := none
  closing_date : Option String := none
  added_by_name : Option String := none
  added_by_company : Option String := none
  scraped_at : String := ""
deriving DecidableEq

/-! ## The parsed document and the browser environment

A fetched page is abstracted at the BeautifulSoup boundary:
`select sel` is the raw text content of `soup.select_one(sel)` (or `none`
when no element matches); `element.get_text(strip=True)` is modelled as
`pyStrip` of that raw content.  `selectImg` is the `src` attribute of the
first image matching a selector.  The two free-text lookups of the source
(closing date and "Added by") are carried as fields. -/

structure Doc where
  select : String → Option String
  selectImg : String → Option String
  closingText : Option String
  addedByName : Option String
  addedByCompany : Option String

/-- Outcome of navigating the browser to a job URL: either the navigation
or parsing raises, or the browser lands on a final URL with a rendered
document. -/
inductive FetchResult where
  | raises : FetchResult
  | landed : String → Doc → FetchResult

/-! ## Configuration constants of `EspritJobScraper.__init__` -/

def base_url : String := "https://espritconnect.com"

def initial_job_id : Nat := 795

/-! ## Cursor store (`load_last_job_id` and the `__init__` adjustment)

The persisted state file is modelled as `Option Nat`: `none` covers the
file being absent, unreadable, or missing the `last_job_id` key — every
such case falls back to the initial ID in the source. -/

def load_last_job_id (stateFile : Option Nat) : Nat :=
  match stateFile with
  | some n => n
  | none => initial_job_id

/-- The `current_job_id` the walk starts from: the loaded cursor,
decremented by one when it exceeds the initial ID (duplicate-safety
adjustment in `__init__`). -/
def init_current_job_id (stateFile : Option Nat) : Nat :=
  let c := load_last_job_id stateFile
  if initial_job_id < c then c - 1 else c

/-! ## Selector chains (verbatim from `extract_job_data`) -/

def title_selectors : List String :=
  ["#jobPageJobTitle", "h2#jobPageJobTitle", "h1.job-title",
   ".job-header h1", ".job-details h1", "h1", "h2", ".title"]

def company_selectors : List String :=
  ["#jobPageOrganization_0", "p#jobPageOrganization_0", ".company-name",
   ".job-company", ".employer", ".company"]

def location_selectors : List String :=
  ["#jobPageJobFunction_0", "p#jobPageJobFunction_0", ".job-location",
   ".location", ".job-address"]

def description_selectors : List String :=
  ["#jobPageDescription", "div#jobPageDescription", ".job-description",
   ".description", ".job-content", ".content"]

def requirements_selectors : List String :=
  [".job-requirements", ".requirements", ".job-qualifications",
   ".qualifications"]

def date_selectors : List String :=
  [".posted-date", ".job-date", ".publication-date"]

def image_selectors : List String :=
  [".job-image img", ".company-logo img", ".job-header img"]

def company_logo_selectors : List String :=
  [".gw-company-logo img", ".company-logo-position"]

def employment_type_selectors : List String :=
  ["#jobPageOrganization_2", "p#jobPageOrganization_2"]

def industry_selectors : List String :=
  ["#jobPageJobFunction_2", "p#jobPageJobFunction_2"]

def actual_location_selectors : List String :=
  [".location-address", ".location-icon-text"]

/-! ## Field extractor (`_extract_text_by_selectors`, `_extract_image_url`) -/

/-- Try selectors in order; return the first stripped element text that is
non-empty, else the caller-supplied default (which the source passes either
as a string or as `None`). -/
def extract_text_by_selectors (doc : Doc) :
    List String → Option String → Option String
  | [], dflt => dflt
  | sel :: rest, dflt =>
    match doc.select sel with
    | some raw =>
      if pyStrip raw != "" then some (pyStrip raw)
      else extract_text_by_selectors doc rest dflt
    | none => extract_text_by_selectors doc rest dflt

/-- The string-default instantiation of the extractor (the call sites with
defaults like `"Unknown Title"`). -/
def extract_text_str (doc : Doc) (sels : List String) (dflt : String) :
    String :=
  (extract_text_by_selectors doc sels (some dflt)).getD dflt

/-- Simplified `urllib.parse.urljoin` for relative image paths. -/
def urljoin (base src : String) : String := base ++ "/" ++ src

/-- Try selectors in order for an image `src`; absolute URLs are returned
unchanged, relative ones are resolved against the base URL. -/
def extract_image_url (doc : Doc) : List String → Option String
  | [] => none
  | sel :: rest =>
    match doc.selectImg sel with
    | some src =>
      if strStartsWith src "http" then some src
      else some (urljoin base_url src)
    | none => extract_image_url doc rest

/-! ## Record construction (the `JobPosting(...)` call in
`extract_job_data`, lines 492-512 of the source) -/

def build_job_posting (doc : Doc) (job_id : Nat) : JobPosting :=
  let title := extract_text_str doc title_selectors "Unknown Title"
  let company := extract_text_str doc company_selectors "Unknown Company"
  let location := extract_text_str doc location_selectors "Unknown Location"
  let description :=
    extract_text_str doc description_selectors "No description available"
  let requirements :=
    extract_text_str doc requirements_selectors "No requirements specified"
  let posted_date := extract_text_str doc date_selectors "Unknown Date"
  let actual_location :=
    extract_text_by_selectors doc actual_location_selectors none
  { job_id := job_id
    title := pyStrip title
    company := pyStrip company
    location := pyOr actual_location (pyStrip location)
    description := pySlice (pyStrip description) 1000
    requirements := pySlice (pyStrip requirements) 500
    posted_date := pyStrip posted_date
    url := base_url ++ "/jobs/" ++ toString job_id
    image_url := extract_image_url doc image_selectors
    company_logo_url := extract_image_url doc company_logo_selectors
    employment_type :=
      extract_text_by_selectors doc employment_type_selectors none
    industry := extract_text_by_selectors doc industry_selectors none
    job_function := if pyTruthy actual_location then some location else none
    closing_date := doc.closingText.map pyStrip
    added_by_name := doc.addedByName.map pyStrip
    added_by_company := doc.addedByCompany.map pyStrip
    scraped_at := "" }

/-! ## Page classifier (`is_redirected_to_home`) -/

def is_redirected_to_home (base : String) (current_url : String) : Bool :=
  strEndsWith current_url "/feed" ||
  strEndsWith current_url "/" ||
  strEndsWith current_url "/jobs" ||
  !(strContains current_url "/jobs/") ||
  current_url == base ||
  current_url == base ++ "/" ||
  current_url == base ++ "/feed"

/-! ## Record validator (`_is_empty_job`) -/

def title_is_empty (t : String) : Bool :=
  t == "" || pyStrip t == "" ||
  pyLower t == "unknown" || pyLower t == "no title" ||
  pyLower t == "unknown title"

def company_is_empty (c : String) : Bool :=
  c == "" || pyStrip c == "" ||
  pyLower c == "unknown" || pyLower c == "unknown company" ||
  pyLower c == "no company"

def description_is_empty (d : String) : Bool :=
  d == "" || pyStrip d == "" ||
  pyLower d == "no description available" || pyLower d == "no description" ||
  pyLower d == "unknown description" || (pyStrip d).length < 20

/-- Sum the three emptiness indicators; the job counts as empty when at
least two are set (`sum(empty_indicators) >= 2`). -/
def is_empty_job (job : JobPosting) : Bool :=
  Nat.ble 2
    ((if title_is_empty job.title then 1 else 0) +
     (if company_is_empty job.company then 1 else 0) +
     (if description_is_empty job.description then 1 else 0))

/-! ## Single-ID extraction (`extract_job_data`) -/

/-- Result of `extract_job_data`: `None` (redirect detected, or any
exception caught by the blanket handler), the `"EMPTY_JOB_STOP"` sentinel,
or a job record. -/
inductive ExtractResult where
  | noJob : ExtractResult
  | emptyStop : ExtractResult
  | job : JobPosting → ExtractResult
deriving DecidableEq

def extract_job_data (env : Nat → FetchResult) (job_id : Nat) :
    ExtractResult :=
  match env job_id with
  | .raises => .noJob
  | .landed finalUrl doc =>
    if is_redirected_to_home base_url finalUrl then .noJob
    else
      let job := build_job_posting doc job_id
      if is_empty_job job then .emptyStop
      else .job job

/-! ## The walk (`scrape_jobs`)

The mutable scraper fields touched by the loop become an explicit state.
`jobs_scraped` is the list `self.jobs_scraped`, `existing_job_ids` the
duplicate set, and `saved_last_job_id` the content of the persisted state
file (the `last_job_id` written by `save_last_job_id`, or `none` when no
save has happened yet).  The loop counter `jobs_scraped` of the source is
the `count` argument of `scrape_loop`. -/

structure WalkState where
  current_job_id : Nat
  jobs_scraped : List JobPosting
  existing_job_ids : List Nat
  saved_last_job_id : Option Nat
deriving DecidableEq

/-- Why the loop stopped.  `outOfFuel` is an artefact of the fuel-indexed
embedding; the source loop has no such exit. -/
inductive StopReason where
  | quota : StopReason
  | endOfJobs : StopReason
  | emptyStop : StopReason
  | outOfFuel : StopReason
deriving DecidableEq

/-- The duplicate-check-then-append-then-advance block of the loop body
(lines 614-626 of the source).  Returns the new state and the new accepted
count. -/
def handle_scraped_job (st : WalkState) (count : Nat) (j : JobPosting) :
    WalkState × Nat :=
  if st.existing_job_ids.contains j.job_id then
    ({ st with current_job_id := st.current_job_id + 1 }, count)
  else
    ({ st with
        jobs_scraped := st.jobs_scraped ++ [j],
        existing_job_ids := j.job_id :: st.existing_job_ids,
        current_job_id := st.current_job_id + 1 }, count + 1)

/-- The `while jobs_scraped < max_jobs` loop.  On the `"EMPTY_JOB_STOP"`
sentinel the cursor was already saved inside `extract_job_data` with the
current (failing) ID; that effect is recorded here, at the moment the
sentinel is produced. -/
def scrape_loop (env : Nat → FetchResult) (maxJobs : Nat) :
    Nat → Nat → WalkState → WalkState × StopReason
  | 0, _, st => (st, StopReason.outOfFuel)
  | fuel + 1, count, st =>
    if count < maxJobs then
      match extract_job_data env st.current_job_id with
      | .noJob => (st, StopReason.endOfJobs)
      | .emptyStop =>
        ({ st with saved_last_job_id := some st.current_job_id },
         StopReason.emptyStop)
      | .job j =>
        let r := handle_scraped_job st count j
        scrape_loop env maxJobs fuel r.2 r.1
    else (st, StopReason.quota)

/-- `scrape_jobs` after a successful login: run the loop, then perform the
end-of-run save `save_last_job_id(current_job_id - 1)` guarded by
`current_job_id > start_id`. -/
def scrape_jobs (env : Nat → FetchResult) (maxJobs fuel : Nat)
    (st0 : WalkState) : WalkState × StopReason :=
  let start_id := st0.current_job_id
  let r := scrape_loop env maxJobs fuel 0 st0
  if start_id < r.1.current_job_id then
    ({ r.1 with saved_last_job_id := some (r.1.current_job_id - 1) }, r.2)
  else r

/-- Initial walk state as set up by `__init__`: cursor loaded (and adjusted
by one), no records yet, duplicate set seeded from prior output. -/
def mk_initial_state (stateFile : Option Nat) (seed : List Nat) : WalkState :=
  { current_job_id := init_current_job_id stateFile
    jobs_scraped := []
    existing_job_ids := seed
    saved_last_job_id := none }

/-! ## Concrete documents and environments used in the scenario runs -/

/-- A page on which no selector matches anything. -/
def docNone : Doc :=
  { select := fun _ => none
    selectImg := fun _ => none
    closingText := none
    addedByName := none
    addedByCompany := none }

/-- A fully populated, clearly non-empty job page. -/
def docValid : Doc :=
  { select := fun sel =>
      if sel == "#jobPageJobTitle" then some "Software Engineer"
      else if sel == "#jobPageOrganization_0" then some "Acme Corp"
      else if sel == "#jobPageDescription" then
        some "We build large scale distributed systems every day."
      else none
    selectImg := fun _ => none
    closingText := none
    addedByName := none
    addedByCompany := none }

/-- The URL of a real job page for a given ID. -/
def job_page_url (id : Nat) : String :=
  base_url ++ "/jobs/" ++ toString id

/-! ## Helper lemmas about the string primitives -/

lemma dropWhile_cons_false {α} {p : α → Bool} {a : α} {l : List α}
    (h : List.dropWhile p (a :: l) = a :: l) : p a = false := by
  by_contra hne
  rw [Bool.not_eq_false] at hne
  rw [List.dropWhile_cons_of_pos hne] at h
  have hle : (List.dropWhile p l).length ≤ l.length :=
    (List.dropWhile_suffix p).length_le
  have hlen := congrArg List.length h
  simp at hlen
  omega

lemma stripChars_idem (p : Char → Bool) (l : List Char) :
    List.rdropWhile p (List.dropWhile p (List.rdropWhile p (List.dropWhile p l))) =
      List.rdropWhile p (List.dropWhile p l) := by
  have hm : List.dropWhile p (List.dropWhile p l) = List.dropWhile p l :=
    List.dropWhile_idempotent p l
  have hpre := List.rdropWhile_prefix p (List.dropWhile p l)
  have h1 : List.dropWhile p (List.rdropWhile p (List.dropWhile p l)) =
      List.rdropWhile p (List.dropWhile p l) := by
    cases hr : List.rdropWhile p (List.dropWhile p l) with
    | nil => simp
    | cons a t =>
      rw [hr] at hpre
      obtain ⟨u, hu⟩ := hpre
      rw [← hu] at hm
      simp only [List.cons_append] at hm
      have ha := dropWhile_cons_false hm
      rw [List.dropWhile_cons_of_neg (by simp [ha])]
  rw [h1, List.rdropWhile_idempotent]

/-- Stripping is idempotent, so every extractor output is strip-fixed. -/
lemma pyStrip_idem (s : String) : pyStrip (pyStrip s) = pyStrip s :=
  congrArg String.mk (stripChars_idem Char.isWhitespace s.data)

lemma pySlice_length_le (s : String) (n : Nat) : (pySlice s n).length ≤ n := by
  show (s.data.take n).length ≤ n
  rw [List.length_take]
  exact min_le_left _ _

/-! ## Claim C9: field caps at construction -/

/-- C9: for every input document (including arbitrarily long field texts),
the constructed record's `description` has at most 1000 characters and its
`requirements` at most 500, immediately after construction. -/
theorem build_job_posting_caps (doc : Doc) (id : Nat) :
    (build_job_posting doc id).description.length ≤ 1000 ∧
      (build_job_posting doc id).requirements.length ≤ 500 :=
  ⟨pySlice_length_le _ _, pySlice_length_le _ _⟩

/-! ## Claim C3: the two-of-three emptiness rule -/

lemma two_of_three (b1 b2 b3 : Bool) :
    Nat.ble 2
        ((if b1 then 1 else 0) + (if b2 then 1 else 0) +
          (if b3 then 1 else 0)) = true ↔
      ((b1 = true ∧ b2 = true) ∨ (b1 = true ∧ b3 = true) ∨
        (b2 = true ∧ b3 = true)) := by
  cases b1 <;> cases b2 <;> cases b3 <;> decide

/-- C3: `_is_empty_job` returns true iff at least two of the three
indicators (title blank/placeholder, company blank/placeholder,
description blank/placeholder/under 20 characters after trimming) hold. -/
theorem is_empty_job_two_of_three (job : JobPosting) :
    is_empty_job job = true ↔
      ((title_is_empty job.title = true ∧ company_is_empty job.company = true) ∨
       (title_is_empty job.title = true ∧
         description_is_empty job.description = true) ∨
       (company_is_empty job.company = true ∧
         description_is_empty job.description = true)) :=
  two_of_three _ _ _

/-! ## Claim C7: the redirect classifier -/

/-- C7: the page classifier reports "missing" iff the final URL equals the
base URL, base+`/`, or base+`/feed`, or ends with `/feed`, `/`, or `/jobs`,
or does not contain the substring `/jobs/`. -/
theorem is_redirected_to_home_iff (base current_url : String) :
    is_redirected_to_home base current_url = true ↔
      (current_url = base ∨ current_url = base ++ "/" ∨
       current_url = base ++ "/feed" ∨
       strEndsWith current_url "/feed" = true ∨
       strEndsWith current_url "/" = true ∨
       strEndsWith current_url "/jobs" = true ∨
       strContains current_url "/jobs/" = false) := by
  simp only [is_redirected_to_home, Bool.or_eq_true, Bool.not_eq_true',
    beq_iff_eq]
  tauto

/-! ## Claim C5: resume correctness -/

/-- C5: with a persisted cursor `N` above the initial ID the walk starts at
`N - 1`; with the cursor absent or unreadable it starts at the initial ID. -/
theorem resume_start_spec (seed : List Nat) :
    (∀ N : Nat, initial_job_id < N →
        (mk_initial_state (some N) seed).current_job_id = N - 1) ∧
      (mk_initial_state none seed).current_job_id = initial_job_id := by
  constructor
  · intro N h
    simp [mk_initial_state, init_current_job_id, load_last_job_id, h]
  · rfl

/-- Witness for C5 at the concrete cursor value 800. -/
theorem resume_start_witness :
    (mk_initial_state (some 800) []).current_job_id = 799 :=
  (resume_start_spec []).1 800 (by decide)

/-! ## Claim C8: ordered selector fallback -/

/-- A selector yields nothing usable: no element matches, or the matched
element's stripped text is empty. -/
def selector_misses (doc : Doc) (sel : String) : Bool :=
  match doc.select sel with
  | none => true
  | some raw => pyStrip raw == ""

/-- C8: the extractor returns the stripped text of the first selector in
order that matches an element with non-empty trimmed text, independently
of all later selectors; when every selector misses, it returns the
default. -/
theorem extract_text_spec :
    (∀ (doc : Doc) (pre : List String) (sel : String) (post : List String)
        (dflt : Option String) (raw : String),
        (∀ s ∈ pre, selector_misses doc s = true) →
        doc.select sel = some raw → pyStrip raw ≠ "" →
        extract_text_by_selectors doc (pre ++ sel :: post) dflt =
          some (pyStrip raw)) ∧
    (∀ (doc : Doc) (sels : List String) (dflt : Option String),
        (∀ s ∈ sels, selector_misses doc s = true) →
        extract_text_by_selectors doc sels dflt = dflt) := by
  constructor
  · intro doc pre sel post dflt raw hpre hsel hne
    induction pre with
    | nil =>
      simp only [List.nil_append, extract_text_by_selectors, hsel]
      rw [if_pos (by simpa using hne)]
    | cons p pre ih =>
      have hp := hpre p (by simp)
      have hrest : ∀ s ∈ pre, selector_misses doc s = true :=
        fun s hs => hpre s (by simp [hs])
      unfold selector_misses at hp
      simp only [List.cons_append, extract_text_by_selectors]
      cases hps : doc.select p with
      | none => exact ih hrest
      | some r =>
        rw [hps] at hp
        have hr : pyStrip r = "" := by simpa using hp
        simp only [hr]
        exact ih hrest
  · intro doc sels dflt h
    induction sels with
    | nil => rfl
    | cons s rest ih =>
      have hs := h s (by simp)
      have hrest : ∀ x ∈ rest, selector_misses doc x = true :=
        fun x hx => h x (by simp [hx])
      unfold selector_misses at hs
      simp only [extract_text_by_selectors]
      cases hss : doc.select s with
      | none => exact ih hrest
      | some r =>
        rw [hss] at hs
        have hr : pyStrip r = "" := by simpa using hs
        simp only [hr]
        exact ih hrest

/-- A document on which, of the three-selector chain used in the witness,
only the second selector matches. -/
def docC8 : Doc :=
  { select := fun s => if s == "h2" then some "  Data Analyst  " else none
    selectImg := fun _ => none
    closingText := none
    addedByName := none
    addedByCompany := none }

/-- Witness for C8: in a 3-locator chain where only the second locator
matches, the second locator's trimmed text is returned, not the default. -/
theorem extract_text_spec_witness :
    extract_text_by_selectors docC8 ["h1", "h2", "h3"]
      (some "Unknown Title") = some "Data Analyst" := by
  have h := extract_text_spec.1 docC8 ["h1"] "h2" ["h3"]
    (some "Unknown Title") "  Data Analyst  " (by decide) (by decide)
    (by decide)
  exact h.trans (congrArg some (by decide))

/-! ## Claim C10: location versus job function -/

/-- Every `some` value a selector chain produces is either the default
itself or a non-empty strip-fixed element text. -/
lemma extract_chain_some_cases (doc : Doc) :
    ∀ (sels : List String) (dflt : Option String) (a : String),
      extract_text_by_selectors doc sels dflt = some a →
      dflt = some a ∨ (a ≠ "" ∧ pyStrip a = a) := by
  intro sels
  induction sels with
  | nil => intro dflt a h; exact Or.inl h
  | cons s rest ih =>
    intro dflt a h
    simp only [extract_text_by_selectors] at h
    cases hss : doc.select s with
    | none => simp only [hss] at h; exact ih dflt a h
    | some r =>
      simp only [hss] at h
      by_cases hr : pyStrip r != ""
      · rw [if_pos hr] at h
        obtain rfl : pyStrip r = a := by simpa using h
        exact Or.inr ⟨by simpa using hr, pyStrip_idem r⟩
      · rw [if_neg hr] at h
        exact ih dflt a h

/-- The string-default extractor's output is strip-fixed whenever the
default is. -/
lemma extract_str_strip_fixed (doc : Doc) (sels : List String) (d : String)
    (hd : pyStrip d = d) :
    pyStrip (extract_text_str doc sels d) = extract_text_str doc sels d := by
  unfold extract_text_str
  cases hch : extract_text_by_selectors doc sels (some d) with
  | none => simpa using hd
  | some a =>
    rcases extract_chain_some_cases doc sels (some d) a hch with h | h
    · obtain rfl : d = a := by simpa using h
      simpa using hd
    · simpa using h.2

/-- C10: when the actual-location chain matched non-empty text, the record
keeps that text as `location` and the location-chain result becomes
`job_function`; otherwise `location` is the location-chain result and
`job_function` is absent. -/
theorem location_and_job_function (doc : Doc) (id : Nat) :
    (∀ a, extract_text_by_selectors doc actual_location_selectors none =
        some a →
      (build_job_posting doc id).location = a ∧
        (build_job_posting doc id).job_function =
          some (extract_text_str doc location_selectors
            "Unknown Location")) ∧
    (extract_text_by_selectors doc actual_location_selectors none = none →
      (build_job_posting doc id).location =
          extract_text_str doc location_selectors "Unknown Location" ∧
        (build_job_posting doc id).job_function = none) := by
  constructor
  · intro a ha
    have hprops :=
      extract_chain_some_cases doc actual_location_selectors none a ha
    have hne : a ≠ "" := by
      rcases hprops with h | h
      · cases h
      · exact h.1
    constructor
    · simp only [build_job_posting, ha, pyOr]
      rw [if_neg (by simpa using hne)]
    · simp only [build_job_posting, ha, pyTruthy]
      rw [if_pos (by simpa using hne)]
  · intro ha
    constructor
    · simp only [build_job_posting, ha, pyOr]
      exact extract_str_strip_fixed doc location_selectors
        "Unknown Location" (by decide)
    · simp only [build_job_posting, ha, pyTruthy]
      rfl

/-- A document whose actual-location selector and location-chain selector
both match. -/
def docC10 : Doc :=
  { select := fun s =>
      if s == ".location-address" then some " Tunis "
      else if s == "#jobPageJobFunction_0" then some "Full time"
      else none
    selectImg := fun _ => none
    closingText := none
    addedByName := none
    addedByCompany := none }

/-- Witness for C10 on a concrete document with a matched actual
location. -/
theorem location_and_job_function_witness :
    (build_job_posting docC10 7).location = "Tunis" ∧
      (build_job_posting docC10 7).job_function = some "Full time" := by
  have h := (location_and_job_function docC10 7).1 "Tunis" (by decide)
  exact ⟨h.1, h.2.trans (congrArg some (by decide))⟩

/-! ## Claim C6: duplicate suppression is idempotent -/

/-- C6: feeding two successfully extracted records with the same `job_id`
through the loop's record-handling block leaves exactly one record with
that ID in the output and still advances the cursor past both. -/
theorem duplicate_suppression (st : WalkState) (count : Nat)
    (j j' : JobPosting) (hid : j'.job_id = j.job_id)
    (hex : st.existing_job_ids.contains j.job_id = false)
    (hjobs : (st.jobs_scraped.map JobPosting.job_id).count j.job_id = 0) :
    (((handle_scraped_job (handle_scraped_job st count j).1
          (handle_scraped_job st count j).2 j').1.jobs_scraped.map
            JobPosting.job_id).count j.job_id = 1) ∧
      (handle_scraped_job (handle_scraped_job st count j).1
          (handle_scraped_job st count j).2 j').1.current_job_id =
        st.current_job_id + 2 := by
  have hmem : j.job_id ∉ st.existing_job_ids := by simpa using hex
  unfold handle_scraped_job
  simp [hmem, hid, hjobs, List.count_append]

/-- A concrete record used by the C6 witness. -/
def jpC6 : JobPosting :=
  { job_id := 805, title := "T", company := "C", location := "L",
    description := "D", requirements := "R", posted_date := "P", url := "U" }

/-- A concrete walk state used by the C6 witness. -/
def stC6 : WalkState :=
  { current_job_id := 805, jobs_scraped := [], existing_job_ids := [],
    saved_last_job_id := none }

/-- Witness for C6 with a concrete state and record. -/
theorem duplicate_suppression_witness :
    (((handle_scraped_job (handle_scraped_job stC6 0 jpC6).1
          (handle_scraped_job stC6 0 jpC6).2 jpC6).1.jobs_scraped.map
            JobPosting.job_id).count 805 = 1) ∧
      (handle_scraped_job (handle_scraped_job stC6 0 jpC6).1
          (handle_scraped_job stC6 0 jpC6).2 jpC6).1.current_job_id = 807 := by
  have h := duplicate_suppression stC6 0 jpC6 jpC6 rfl (by decide) (by decide)
  exact h

/-! ## Loop lemmas for the failsafe-stop claim -/

/-- A job produced by `extract_job_data` carries the queried ID. -/
lemma extract_job_data_job_id (env : Nat → FetchResult) (id : Nat)
    (j : JobPosting) (h : extract_job_data env id = ExtractResult.job j) :
    j.job_id = id := by
  unfold extract_job_data at h
  cases henv : env id with
  | raises => simp only [henv] at h; cases h
  | landed url doc =>
    simp only [henv] at h
    by_cases hred : is_redirected_to_home base_url url = true
    · rw [if_pos hred] at h; cases h
    · rw [if_neg hred] at h
      by_cases hemp : is_empty_job (build_job_posting doc id) = true
      · rw [if_pos hemp] at h; cases h
      · rw [if_neg hemp] at h
        injection h with h'
        rw [← h']
        rfl

lemma handle_scraped_job_current (st : WalkState) (count : Nat)
    (j : JobPosting) :
    (handle_scraped_job st count j).1.current_job_id =
      st.current_job_id + 1 := by
  unfold handle_scraped_job; split <;> rfl

lemma handle_scraped_job_jobs (st : WalkState) (count : Nat)
    (j : JobPosting) :
    (handle_scraped_job st count j).1.jobs_scraped = st.jobs_scraped ∨
      (handle_scraped_job st count j).1.jobs_scraped =
        st.jobs_scraped ++ [j] := by
  unfold handle_scraped_job; split
  · exact Or.inl rfl
  · exact Or.inr rfl

/-- When the loop exits through the empty-record failsafe, the state saved
inside `extract_job_data` points at the current (failing) ID, the cursor
never moved backwards, and every appended record has an ID strictly below
the failing one. -/
lemma scrape_loop_emptyStop_spec (env : Nat → FetchResult) (maxJobs : Nat) :
    ∀ (fuel count : Nat) (st st' : WalkState),
      scrape_loop env maxJobs fuel count st = (st', StopReason.emptyStop) →
      st'.saved_last_job_id = some st'.current_job_id ∧
        st.current_job_id ≤ st'.current_job_id ∧
        ((∀ j ∈ st.jobs_scraped, j.job_id < st.current_job_id) →
          ∀ j ∈ st'.jobs_scraped, j.job_id < st'.current_job_id) := by
  intro fuel
  induction fuel with
  | zero =>
    intro count st st' h
    simp [scrape_loop] at h
  | succ fuel ih =>
    intro count st st' h
    simp only [scrape_loop] at h
    by_cases hq : count < maxJobs
    · rw [if_pos hq] at h
      cases hext : extract_job_data env st.current_job_id with
      | noJob => simp only [hext] at h; simp at h
      | emptyStop =>
        simp only [hext] at h
        have h1 : ({ st with saved_last_job_id := some st.current_job_id } : WalkState) = st' :=
          congrArg Prod.fst h
        subst h1
        refine ⟨rfl, Nat.le_refl _, fun hinv => hinv⟩
      | job j =>
        simp only [hext] at h
        obtain ⟨hsav, hle, hpres⟩ := ih _ _ _ h
        refine ⟨hsav, ?_, ?_⟩
        · have h2 := handle_scraped_job_current st count j
          omega
        · intro hinv
          apply hpres
          intro x hx
          rw [handle_scraped_job_current]
          rcases handle_scraped_job_jobs st count j with hj | hj
          · rw [hj] at hx
            exact Nat.lt_succ_of_lt (hinv x hx)
          · rw [hj] at hx
            rcases List.mem_append.mp hx with hx' | hx'
            · exact Nat.lt_succ_of_lt (hinv x hx')
            · have hxj : x = j := by simpa using hx'
              have hjid := extract_job_data_job_id env st.current_job_id j hext
              rw [hxj, hjid]
              omega
    · rw [if_neg hq] at h; simp at h

/-! ## Claim C1 (amended): cursor at the empty-record failsafe stop -/

/-- C1 (amended): when the walk stops through the empty-record failsafe at
ID `J` (the final `current_job_id`), the failing record is never in the
output, and the finally persisted `last_job_id` is `J` when `J` is the
run's first fetched ID and `J - 1` otherwise — the end-of-run save at the
bottom of `scrape_jobs` overwrites the `J` saved at the moment of the
stop whenever the cursor advanced at all. -/
theorem empty_failsafe_cursor (env : Nat → FetchResult) (maxJobs fuel : Nat)
    (st0 : WalkState)
    (hstop : (scrape_jobs env maxJobs fuel st0).2 = StopReason.emptyStop) :
    (scrape_jobs env maxJobs fuel st0).1.saved_last_job_id =
      some (if st0.current_job_id <
                (scrape_jobs env maxJobs fuel st0).1.current_job_id
            then (scrape_jobs env maxJobs fuel st0).1.current_job_id - 1
            else (scrape_jobs env maxJobs fuel st0).1.current_job_id) ∧
      (st0.jobs_scraped = [] →
        (scrape_jobs env maxJobs fuel st0).1.current_job_id ∉
          (scrape_jobs env maxJobs fuel st0).1.jobs_scraped.map
            JobPosting.job_id) := by
  have hstop' := hstop
  rcases hloop : scrape_loop env maxJobs fuel 0 st0 with ⟨st1, reason⟩
  have hsj : scrape_jobs env maxJobs fuel st0 =
      if st0.current_job_id < st1.current_job_id
      then ({ st1 with saved_last_job_id := some (st1.current_job_id - 1) },
        reason)
      else (st1, reason) := by
    unfold scrape_jobs
    rw [hloop]
  rw [hsj] at hstop' ⊢
  by_cases hc : st0.current_job_id < st1.current_job_id
  · rw [if_pos hc] at hstop' ⊢
    have hreason : reason = StopReason.emptyStop := hstop'
    subst hreason
    obtain ⟨hsav, hle, hpres⟩ :=
      scrape_loop_emptyStop_spec env maxJobs fuel 0 st0 st1 hloop
    constructor
    · simp only []
      rw [if_pos (by simpa using hc)]
    · intro h0 hmem
      simp only [] at hmem
      obtain ⟨x, hx, hxid⟩ := List.mem_map.mp hmem
      have hall := hpres (by simp [h0]) x hx
      omega
  · rw [if_neg hc] at hstop' ⊢
    have hreason : reason = StopReason.emptyStop := hstop'
    subst hreason
    obtain ⟨hsav, hle, hpres⟩ :=
      scrape_loop_emptyStop_spec env maxJobs fuel 0 st0 st1 hloop
    constructor
    · rw [if_neg (by simpa using hc)]
      exact hsav
    · intro h0 hmem
      obtain ⟨x, hx, hxid⟩ := List.mem_map.mp hmem
      have hall := hpres (by simp [h0]) x hx
      have hxid' : x.job_id = st1.current_job_id := hxid
      omega

/-! ## Concrete scenario environments -/

/-- Environment for the failsafe scenario: a valid page at 795, an
apparently-empty job page (no selector matches) at 796. -/
def envC1 : Nat → FetchResult := fun id =>
  if id == 795 then FetchResult.landed (job_page_url 795) docValid
  else if id == 796 then FetchResult.landed (job_page_url 796) docNone
  else FetchResult.raises

/-- A fresh walk state starting at ID 795 (initial run, no cursor file,
no prior output). -/
def st795 : WalkState :=
  { current_job_id := 795, jobs_scraped := [], existing_job_ids := [],
    saved_last_job_id := none }

/-- C1 counterexample: this run stops through the empty-record failsafe at
ID 796 (one record, 795, was accepted first), yet the finally persisted
`last_job_id` is 795, not the failing ID 796 — the end-of-run save
overwrites the failsafe save. -/
theorem empty_failsafe_cursor_counterexample :
    (scrape_jobs envC1 500 10 st795).2 = StopReason.emptyStop ∧
      (scrape_jobs envC1 500 10 st795).1.current_job_id = 796 ∧
      (scrape_jobs envC1 500 10 st795).1.saved_last_job_id = some 795 ∧
      (scrape_jobs envC1 500 10 st795).1.saved_last_job_id ≠ some 796 := by
  refine ⟨by decide, by decide, by decide, by decide⟩

/-- Witness for the amended C1 on the concrete failsafe run. -/
theorem empty_failsafe_cursor_witness :
    (scrape_jobs envC1 500 10 st795).1.saved_last_job_id = some 795 ∧
      796 ∉ (scrape_jobs envC1 500 10 st795).1.jobs_scraped.map
        JobPosting.job_id := by
  have h := empty_failsafe_cursor envC1 500 10 st795 (by decide)
  refine ⟨h.1.trans (congrArg some (by decide)), ?_⟩
  have hcur : (scrape_jobs envC1 500 10 st795).1.current_job_id = 796 := by
    decide
  exact hcur ▸ h.2 rfl

/-! ## Claim C2: end-to-end scenario A -/

/-- Environment for scenario A: valid pages at 795-797, a redirect to
`/feed` at 798. -/
def envA : Nat → FetchResult := fun id =>
  if id == 798 then FetchResult.landed (base_url ++ "/feed") docNone
  else if 795 ≤ id ∧ id ≤ 797 then
    FetchResult.landed (job_page_url id) docValid
  else FetchResult.raises

/-- C2 counterexample: in scenario A the output is exactly the records for
795-797, but the persisted cursor is 797 — the `save_last_job_id` at the
end of `scrape_jobs` stores `current_job_id - 1`, and `current_job_id` is
still 798 (never incremented for the redirected ID) — not 798 as claimed. -/
theorem scenario_a_counterexample :
    ((scrape_jobs envA 500 10 (mk_initial_state none [])).1.jobs_scraped.map
        JobPosting.job_id = [795, 796, 797]) ∧
      (scrape_jobs envA 500 10
        (mk_initial_state none [])).1.saved_last_job_id ≠ some 798 := by
  refine ⟨by decide, by decide⟩

/-- C2 (amended): scenario A yields exactly the three records 795-797 and
persists `last_job_id = 797` (the last accepted ID, i.e. the final
`current_job_id - 1`), the walk having ended through redirect detection at
798. -/
theorem scenario_a_amended :
    ((scrape_jobs envA 500 10 (mk_initial_state none [])).1.jobs_scraped.map
        JobPosting.job_id = [795, 796, 797]) ∧
      (scrape_jobs envA 500 10
          (mk_initial_state none [])).1.saved_last_job_id = some 797 ∧
      (scrape_jobs envA 500 10 (mk_initial_state none [])).2 =
        StopReason.endOfJobs := by
  refine ⟨by decide, by decide, by decide⟩

/-! ## Claim C4: per-item exceptions -/

/-- C4 (amended): an exception while processing a single ID is caught
locally inside `extract_job_data` (which returns `None` instead of
propagating), and the walk then treats it exactly like the
end-of-available-jobs redirect: it stops the run at that ID with no record
appended, rather than continuing at the next ID. -/
theorem exception_stops_walk (env : Nat → FetchResult) (maxJobs fuel count :
      Nat) (st : WalkState) (hra : env st.current_job_id = FetchResult.raises)
    (hq : count < maxJobs) :
    extract_job_data env st.current_job_id = ExtractResult.noJob ∧
      scrape_loop env maxJobs (fuel + 1) count st =
        (st, StopReason.endOfJobs) := by
  have hex : extract_job_data env st.current_job_id = ExtractResult.noJob := by
    unfold extract_job_data
    rw [hra]
  refine ⟨hex, ?_⟩
  simp only [scrape_loop, if_pos hq, hex]

/-- Environment for the C4 scenario: valid page at 795, an exception at
796, and another valid page at 797 that the claim would require the walk
to reach. -/
def envC4 : Nat → FetchResult := fun id =>
  if id == 795 then FetchResult.landed (job_page_url 795) docValid
  else if id == 797 then FetchResult.landed (job_page_url 797) docValid
  else FetchResult.raises

/-- C4 counterexample: with an exception at 796, the run ends there —
output holds only 795, the cursor never reaches 797 even though a valid,
extractable job exists at 797. -/
theorem exception_stops_walk_counterexample :
    ((scrape_jobs envC4 500 10 st795).1.jobs_scraped.map
        JobPosting.job_id = [795]) ∧
      (scrape_jobs envC4 500 10 st795).1.current_job_id = 796 ∧
      (scrape_jobs envC4 500 10 st795).2 = StopReason.endOfJobs ∧
      extract_job_data envC4 797 ≠ ExtractResult.noJob := by
  refine ⟨by decide, by decide, by decide, by decide⟩

/-- Walk state sitting at the raising ID 796, used by the C4 witness. -/
def stC4' : WalkState :=
  { current_job_id := 796, jobs_scraped := [], existing_job_ids := [],
    saved_last_job_id := none }

/-- Witness for the amended C4 on a concrete raising environment. -/
theorem exception_stops_walk_witness :
    extract_job_data envC4 796 = ExtractResult.noJob ∧
      scrape_loop envC4 500 5 0 stC4' = (stC4', StopReason.endOfJobs) := by
  have h := exception_stops_walk envC4 500 4 0 stC4' rfl (by decide)
  exact h
